import Mathlib

/-!
Shallow embedding of `chemtools/conceptual/linear.py` (Python 2):
the `LinearGlobalTool` and `LinearLocalTool` classes of the conceptual-DFT
linear energy model, together with the parts of the surrounding package
(`check_dict_energy`, the base-class attribute assignments) that the file
uses.  Scalars are embedded as rationals, density fields as lists of
rationals tagged with an allocation identifier that tracks Python/numpy
object identity (a fresh identifier models a fresh allocation such as
`.copy()` or a numpy binary operation; an in-place `+=` keeps the
identifier of its target).
-/

set_option maxHeartbeats 1000000

/-- Embedding of the Python values that may be passed as the electron-count
argument `n_elec`: `None`, a number (`int`/`float`/`long`), or a non-numeric
object such as a string (one abstract representative). -/
inductive PyVal where
  | none
  | num (q : ℚ)
  | nonNum
  deriving Repr, DecidableEq

/-- Embedding of the Python exceptions the translated code can raise.
`ValueError` is what every explicit `raise` in `linear.py` uses;
`TypeError` arises from arithmetic on a non-numeric operand;
`UnboundLocalError` models `return ff` with `ff` never assigned. -/
inductive PyErr where
  | valueError
  | typeError
  | unboundLocalError
  deriving Repr, DecidableEq

/-- CPython 2 `<` on mixed operand types: `None` compares smaller than every
number, and numbers compare smaller than non-numeric objects (strings,
containers); two numbers compare by value. -/
def pyLt : PyVal → PyVal → Bool
  | .none, .none => false
  | .none, _ => true
  | .num _, .none => false
  | .num a, .num b => a < b
  | .num _, .nonNum => true
  | .nonNum, _ => false

/-- CPython 2 `<=` on mixed operand types (same ordering as `pyLt`). -/
def pyLe : PyVal → PyVal → Bool
  | .none, _ => true
  | .num _, .none => false
  | .num a, .num b => a ≤ b
  | .num _, .nonNum => true
  | .nonNum, .nonNum => true
  | .nonNum, _ => false

/-- CPython 2 `==` across the embedded value kinds: values of different
kinds are unequal, numbers compare by value. -/
def pyEq : PyVal → PyVal → Bool
  | .none, .none => true
  | .num a, .num b => a == b
  | .nonNum, .nonNum => true
  | _, _ => false

/-- Python multiplication `v * q` of an `n_elec` value by a numeric model
coefficient: numeric times numeric succeeds; a non-numeric object (string,
list, dict) times a float raises `TypeError`. -/
def pyMul (v : PyVal) (q : ℚ) : Except PyErr PyVal :=
  match v with
  | .num a => .ok (.num (a * q))
  | _ => .error .typeError

/-- Python addition `q + v` of a numeric model coefficient and a value. -/
def pyAdd (q : ℚ) (v : PyVal) : Except PyErr PyVal :=
  match v with
  | .num a => .ok (.num (q + a))
  | _ => .error .typeError

/-- The test guarding every out-of-range advisory in `linear.py`:
`not self._n0 - 1 <= n_elec <= self._n0 + 1`, a Python chained comparison
evaluated with CPython 2 mixed-type ordering. -/
def warnOutOfRange (n0 : ℚ) (n_elec : PyVal) : Bool :=
  !(pyLe (.num (n0 - 1)) n_elec && pyLe n_elec (.num (n0 + 1)))

/-- State of a `LinearGlobalTool` instance after `__init__`: the reference
electron count `_n0`, the four entries of `_params`, the base-class
ionization potential and electron affinity, and `_n_max`. -/
structure LinearGlobalTool where
  n0 : ℚ
  param_a : ℚ
  param_b : ℚ
  param_a_prime : ℚ
  param_b_prime : ℚ
  ip : ℚ
  ea : ℚ
  n_max : Option ℚ
  deriving Repr, DecidableEq

namespace LinearGlobalTool

/-- `LinearGlobalTool.__init__` after `check_dict_energy` has unpacked the
triple into `n_ref`, `energy_m`, `energy_0`, `energy_p` (lines 80-93 of
`linear.py`).  The fields `ip`/`ea` are the base-class attributes `_ip` and
`_ea`.  Modelled from the spec: `BaseGlobalTool` is not under `src/`; per
the module's documented identities `mu_minus = E(N0) - E(N0-1) = -IP` and
`mu_plus = E(N0+1) - E(N0) = -EA`, it stores `_ip = E(N0-1) - E(N0)` and
`_ea = E(N0) - E(N0+1)`. -/
def ofTriple (n_ref energy_m energy_0 energy_p : ℚ) : LinearGlobalTool :=
  { n0 := n_ref
    param_a := energy_0 - n_ref * (energy_0 - energy_m)
    param_b := energy_0 - energy_m
    param_a_prime := energy_0 - n_ref * (energy_p - energy_0)
    param_b_prime := energy_p - energy_0
    ip := energy_m - energy_0
    ea := energy_0 - energy_p
    n_max := if energy_0 < energy_p then some n_ref else none }

/-- The `_params` list `[a, b, a', b']`. -/
def params (t : LinearGlobalTool) : List ℚ :=
  [t.param_a, t.param_b, t.param_a_prime, t.param_b_prime]

/-- Property `mu_minus`: `-1 * self._ip`. -/
def mu_minus (t : LinearGlobalTool) : ℚ := -1 * t.ip

/-- Property `mu_plus`: `-1 * self._ea`. -/
def mu_plus (t : LinearGlobalTool) : ℚ := -1 * t.ea

/-- Property `mu_zero`: `-0.5 * (self._ea + self._ip)`. -/
def mu_zero (t : LinearGlobalTool) : ℚ := -(1/2) * (t.ea + t.ip)

/-- `LinearGlobalTool.energy` (lines 129-145).  The `Bool` in the result is
whether the out-of-range advisory warning was emitted before returning. -/
def energy (t : LinearGlobalTool) (n_elec : PyVal) : Except PyErr (Bool × PyVal) :=
  match n_elec with
  | .none => .ok (false, .none)
  | n =>
    if pyLt n (.num 0) then .error .valueError
    else
      let warned := warnOutOfRange t.n0 n
      if pyLe n (.num t.n0) then
        match pyMul n t.param_b with
        | .error e => .error e
        | .ok v =>
          match pyAdd t.param_a v with
          | .error e => .error e
          | .ok value => .ok (warned, value)
      else if pyLt (.num t.n0) n then
        match pyMul n t.param_b_prime with
        | .error e => .error e
        | .ok v =>
          match pyAdd t.param_a_prime v with
          | .error e => .error e
          | .ok value => .ok (warned, value)
      else .error .valueError

/-- `LinearGlobalTool.energy_derivative` (lines 147-169).  The `order`
argument is a Python `int`, embedded as an integer; the guard
`isinstance(order, int) and order > 0` is the positivity test. -/
def energy_derivative (t : LinearGlobalTool) (n_elec : PyVal) (order : ℤ) :
    Except PyErr (Bool × PyVal) :=
  match n_elec with
  | .none => .ok (false, .none)
  | n =>
    if pyLt n (.num 0) then .error .valueError
    else
      let warned := warnOutOfRange t.n0 n
      if ¬ (0 < order) then .error .valueError
      else if pyEq n (.num t.n0) then .ok (warned, .none)
      else if 2 ≤ order then .ok (warned, .num 0)
      else if pyLt n (.num t.n0) then .ok (warned, .num t.param_b)
      else if pyLt (.num t.n0) n then .ok (warned, .num t.param_b_prime)
      else .error .valueError

end LinearGlobalTool

/-- Modelled from the spec: `check_dict_energy` (`chemtools/conceptual/utils.py`,
not under `src/`) checks that the mapping of electron counts to energies has
exactly three entries whose sorted keys are consecutive by one, and returns
`(N0, E(N0-1), E(N0), E(N0+1))` with `N0` the middle sorted key; otherwise it
raises the invalid-model-input error. -/
def check_dict_energy (d : List (ℚ × ℚ)) : Except PyErr (ℚ × ℚ × ℚ × ℚ) :=
  if d.length = 3 then
    let ks := List.insertionSort (· ≤ ·) (d.map Prod.fst)
    let n0 := ks.getD 1 0
    if ks = [n0 - 1, n0, n0 + 1] then
      match d.lookup (n0 - 1), d.lookup n0, d.lookup (n0 + 1) with
      | some em, some e0, some ep => .ok (n0, em, e0, ep)
      | _, _, _ => .error .valueError
    else .error .valueError
  else .error .valueError

/-- `LinearGlobalTool.__init__` from the raw dictionary: validate with
`check_dict_energy`, then build the model. -/
def LinearGlobalTool.init (d : List (ℚ × ℚ)) : Except PyErr LinearGlobalTool :=
  match check_dict_energy d with
  | .error e => .error e
  | .ok (n_ref, energy_m, energy_0, energy_p) =>
    .ok (LinearGlobalTool.ofTriple n_ref energy_m energy_0 energy_p)

/-- C1: for every valid energy triple and every real `N ≥ 0` the call
`energy(N)` succeeds (also outside `[N0-1, N0+1]`, where it extrapolates)
and returns `a + b*N` if `N ≤ N0` and `a' + b'*N` if `N > N0`, with
`b = E0 - E-`, `a = E0 - N0*b`, `b' = E+ - E0`, `a' = E0 - N0*b'`;
both linear branches evaluate to `E0` at `N = N0`. -/
theorem C1_energy_piecewise (n0 em e0 ep N : ℚ) (hN : 0 ≤ N) :
    (∃ w, (LinearGlobalTool.ofTriple n0 em e0 ep).energy (.num N) =
      .ok (w, .num (if N ≤ n0 then (e0 - n0 * (e0 - em)) + (e0 - em) * N
                    else (e0 - n0 * (ep - e0)) + (ep - e0) * N))) ∧
    (e0 - n0 * (e0 - em)) + (e0 - em) * n0 = e0 ∧
    (e0 - n0 * (ep - e0)) + (ep - e0) * n0 = e0 := by
  refine ⟨⟨warnOutOfRange n0 (.num N), ?_⟩, by ring, by ring⟩
  have h0 : ¬ (N < 0) := not_lt.mpr hN
  by_cases hle : N ≤ n0
  · simp [LinearGlobalTool.energy, LinearGlobalTool.ofTriple, pyLt, pyLe, pyMul, pyAdd,
      h0, hle, warnOutOfRange]
    ring
  · have hgt : n0 < N := not_le.mp hle
    simp [LinearGlobalTool.energy, LinearGlobalTool.ofTriple, pyLt, pyLe, pyMul, pyAdd,
      h0, hle, hgt, warnOutOfRange]
    ring

theorem C1_energy_piecewise_witness :
    (0 : ℚ) ≤ 15/2 ∧
    ((∃ w, (LinearGlobalTool.ofTriple 5 (-14) (-15) (-31/2)).energy (.num (15/2)) =
      .ok (w, .num (if (15/2 : ℚ) ≤ 5 then ((-15) - 5 * ((-15) - (-14))) + ((-15) - (-14)) * (15/2)
                    else ((-15) - 5 * ((-31/2) - (-15))) + ((-31/2) - (-15)) * (15/2)))) ∧
    ((-15 : ℚ) - 5 * ((-15) - (-14))) + ((-15) - (-14)) * 5 = -15 ∧
    ((-15 : ℚ) - 5 * ((-31/2) - (-15))) + ((-31/2) - (-15)) * 5 = -15) :=
  ⟨by norm_num, C1_energy_piecewise 5 (-14) (-15) (-31/2) (15/2) (by norm_num)⟩

/-- C2: for every valid energy triple, every real `N ≥ 0` and every positive
integer `order`, `energy_derivative(N, order)` returns the undefined sentinel
(`None`) when `N == N0` regardless of `order`; otherwise `0` when
`order ≥ 2`; otherwise `b` when `N < N0` and `b'` when `N > N0`. -/
theorem C2_energy_derivative_piecewise (n0 em e0 ep N : ℚ) (order : ℤ)
    (hN : 0 ≤ N) (hord : 0 < order) :
    ∃ w, (LinearGlobalTool.ofTriple n0 em e0 ep).energy_derivative (.num N) order =
      .ok (w, if N = n0 then .none
              else if 2 ≤ order then .num 0
              else if N < n0 then .num (e0 - em)
              else .num (ep - e0)) := by
  refine ⟨warnOutOfRange n0 (.num N), ?_⟩
  have h0 : ¬ (N < 0) := not_lt.mpr hN
  by_cases heq : N = n0
  · subst heq
    simp [LinearGlobalTool.energy_derivative, LinearGlobalTool.ofTriple, pyLt, pyEq,
      h0, hord]
  · by_cases h2 : 2 ≤ order
    · simp [LinearGlobalTool.energy_derivative, LinearGlobalTool.ofTriple, pyLt, pyEq,
        h0, hord, heq, h2]
    · by_cases hlt : N < n0
      · simp [LinearGlobalTool.energy_derivative, LinearGlobalTool.ofTriple, pyLt, pyEq,
          h0, hord, heq, h2, hlt]
      · have hgt : n0 < N := lt_of_le_of_ne (not_lt.mp hlt) (Ne.symm heq)
        simp [LinearGlobalTool.energy_derivative, LinearGlobalTool.ofTriple, pyLt, pyEq,
          h0, hord, heq, h2, hlt, hgt]

theorem C2_energy_derivative_piecewise_witness :
    ((0 : ℚ) ≤ 4 ∧ (0 : ℤ) < 1) ∧
    (∃ w, (LinearGlobalTool.ofTriple 5 (-14) (-15) (-31/2)).energy_derivative (.num 4) 1 =
      .ok (w, if (4 : ℚ) = 5 then .none
              else if (2 : ℤ) ≤ 1 then .num 0
              else if (4 : ℚ) < 5 then .num ((-15) - (-14))
              else .num ((-31/2) - (-15)))) :=
  ⟨⟨by norm_num, by norm_num⟩,
    C2_energy_derivative_piecewise 5 (-14) (-15) (-31/2) 4 1 (by norm_num) (by norm_num)⟩

/-- Definition following the spec's words (section 4.2): the ionization
potential as the spec writes it, `IP = E0 - E(N0-1)`.  Kept separate from
the source-derived model so the two conventions can be compared. -/
def ip_spec (energy_m energy_0 : ℚ) : ℚ := energy_0 - energy_m

/-- Definition following the spec's words (section 4.2): the electron
affinity as the spec writes it, `EA = E(N0+1) - E0`. -/
def ea_spec (energy_0 energy_p : ℚ) : ℚ := energy_p - energy_0

/-- C3 counterexample: on the worked triple `{4: -14, 5: -15, 6: -15.5}` the
code's `mu_minus` is `-1`, which is not `-IP` under the spec's definition
`IP = E0 - E(N0-1)` (that would be `+1`), and the code's `mu_plus` is
`-1/2`, not the `+1/2` the claim demands. -/
theorem C3_mu_sign_counterexample :
    (LinearGlobalTool.ofTriple 5 (-14) (-15) (-31/2)).mu_minus = -1 ∧
    (LinearGlobalTool.ofTriple 5 (-14) (-15) (-31/2)).mu_minus ≠ -(ip_spec (-14) (-15)) ∧
    (LinearGlobalTool.ofTriple 5 (-14) (-15) (-31/2)).mu_plus = -(1/2) ∧
    (LinearGlobalTool.ofTriple 5 (-14) (-15) (-31/2)).mu_plus ≠ 1/2 := by
  refine ⟨?_, ?_, ?_, ?_⟩ <;>
    simp [LinearGlobalTool.mu_minus, LinearGlobalTool.mu_plus, LinearGlobalTool.ofTriple,
      ip_spec] <;> norm_num

/-- C3 amended: `mu_minus = -IP` and `mu_plus = -EA` under the physical
conventions documented in the module itself, `IP = E(N0-1) - E0` and
`EA = E0 - E(N0+1)`; on the worked triple `{4: -14, 5: -15, 6: -15.5}` this
gives `mu_minus = -1` and `mu_plus = -1/2`. -/
theorem C3_mu_sign_amended (n0 em e0 ep : ℚ) :
    (LinearGlobalTool.ofTriple n0 em e0 ep).mu_minus = -(em - e0) ∧
    (LinearGlobalTool.ofTriple n0 em e0 ep).mu_plus = -(e0 - ep) ∧
    (LinearGlobalTool.ofTriple 5 (-14) (-15) (-31/2)).mu_minus = -1 ∧
    (LinearGlobalTool.ofTriple 5 (-14) (-15) (-31/2)).mu_plus = -(1/2) := by
  refine ⟨?_, ?_, ?_, ?_⟩ <;>
    simp [LinearGlobalTool.mu_minus, LinearGlobalTool.mu_plus, LinearGlobalTool.ofTriple] <;>
    norm_num

/-- C4: for every valid energy triple, `mu_zero = (mu_plus + mu_minus) / 2`
exactly, and equivalently `mu_zero = -(IP + EA)/2` with the model's
ionization potential and electron affinity. -/
theorem C4_mu_zero_average (n0 em e0 ep : ℚ) :
    (LinearGlobalTool.ofTriple n0 em e0 ep).mu_zero =
      ((LinearGlobalTool.ofTriple n0 em e0 ep).mu_plus +
        (LinearGlobalTool.ofTriple n0 em e0 ep).mu_minus) / 2 ∧
    (LinearGlobalTool.ofTriple n0 em e0 ep).mu_zero =
      -((LinearGlobalTool.ofTriple n0 em e0 ep).ip +
        (LinearGlobalTool.ofTriple n0 em e0 ep).ea) / 2 := by
  constructor <;>
    simp [LinearGlobalTool.mu_zero, LinearGlobalTool.mu_plus, LinearGlobalTool.mu_minus,
      LinearGlobalTool.ofTriple] <;> ring

/-- Element-wise addition of two same-shaped density fields. -/
def listAdd (xs ys : List ℚ) : List ℚ := List.zipWith (· + ·) xs ys

/-- Element-wise subtraction of two same-shaped density fields. -/
def listSub (xs ys : List ℚ) : List ℚ := List.zipWith (· - ·) xs ys

/-- Element-wise scaling of a density field by a scalar. -/
def listSMul (c : ℚ) (xs : List ℚ) : List ℚ := xs.map (fun x => c * x)

/-- A numpy array: its contents together with an allocation identifier that
stands for the Python object identity.  Two arrays with equal data but
different identifiers are distinct objects. -/
structure NArray where
  id : Nat
  data : List ℚ
  deriving Repr, DecidableEq

/-- `a.copy()`: same data, freshly allocated. -/
def npCopy (a : NArray) (k : Nat) : NArray := ⟨k, a.data⟩

/-- numpy binary subtraction `a - b`: element-wise data, fresh allocation. -/
def npSub (a b : NArray) (k : Nat) : NArray := ⟨k, listSub a.data b.data⟩

/-- numpy scaling `c * a` (or `a * c`): element-wise data, fresh allocation. -/
def npSMul (c : ℚ) (a : NArray) (k : Nat) : NArray := ⟨k, listSMul c a.data⟩

/-- numpy in-place addition `a += b`: the target keeps its identity. -/
def npIAdd (a b : NArray) : NArray := ⟨a.id, listAdd a.data b.data⟩

/-- State of a `LinearLocalTool` instance after `__init__`: the reference
electron count `_n0`, the three input density fields `_dens_m`, `_dens_0`,
`_dens_p`, the derived Fukui fields, and the next free allocation
identifier. -/
structure LinearLocalTool where
  n0 : ℚ
  dens_m : NArray
  dens_0 : NArray
  dens_p : NArray
  ff_plus : NArray
  ff_minus : NArray
  ff_zero : NArray
  nextId : Nat
  deriving Repr, DecidableEq

namespace LinearLocalTool

/-- Property `density_zero` of the base class: the stored field `_dens_0`
itself (no copy).  Modelled from the spec: `BaseLocalTool` is not under
`src/`; the spec records that the model retains `density_zero` equal to the
input density at the reference electron count. -/
def density_zero (t : LinearLocalTool) : NArray := t.dens_0

/-- The identifiers of every array the model stores. -/
def storedIds (t : LinearLocalTool) : List Nat :=
  [t.dens_m.id, t.dens_0.id, t.dens_p.id, t.ff_plus.id, t.ff_minus.id, t.ff_zero.id]

/-- Well-formed allocation state: every stored array was allocated before
the next free identifier. -/
def wf (t : LinearLocalTool) : Prop := ∀ i ∈ t.storedIds, i < t.nextId

instance (t : LinearLocalTool) : Decidable t.wf := List.decidableBAll _ _

/-- The tail of `LinearLocalTool.__init__` once validation has passed
(lines 216-219 of `linear.py`) together with the base-class assignment of
`_dens_m`, `_dens_0`, `_dens_p` (modelled from the spec: `BaseLocalTool` is
not under `src/`; it stores the input fields at `N0-1`, `N0`, `N0+1`).
`ff_plus = dens_p - dens_0`, `ff_minus = dens_0 - dens_m` and
`ff_zero = 0.5 * (dens_p - dens_m)` each allocate fresh arrays. -/
def ofDensityTriple (n0 : ℚ) (dm d0 dp : NArray) (k : Nat) : LinearLocalTool :=
  { n0 := n0
    dens_m := dm
    dens_0 := d0
    dens_p := dp
    ff_plus := npSub dp d0 k
    ff_minus := npSub d0 dm (k + 1)
    ff_zero := npSMul (1/2) (npSub dp dm (k + 2)) (k + 3)
    nextId := k + 4 }

/-- The sorted keys of an input density dictionary. -/
def sortedKeys (d : List (ℚ × NArray)) : List ℚ :=
  List.insertionSort (· ≤ ·) (d.map Prod.fst)

/-- The middle sorted key, `sorted(dict_density.keys())[1]`. -/
def middleKey (d : List (ℚ × NArray)) : ℚ := (sortedKeys d).getD 1 0

/-- `LinearLocalTool.__init__` (lines 202-219): require exactly three
non-negative keys, a middle key of at least one, and consecutive keys; then
build the model.  `k` is the next free allocation identifier. -/
def init (d : List (ℚ × NArray)) (k : Nat) : Except PyErr LinearLocalTool :=
  if d.length = 3 ∧ ∀ q ∈ d.map Prod.fst, 0 ≤ q then
    let n0 := middleKey d
    if n0 < 1 then .error .valueError
    else if sortedKeys d = [n0 - 1, n0, n0 + 1] then
      match d.lookup (n0 - 1), d.lookup n0, d.lookup (n0 + 1) with
      | some dm, some d0, some dp => .ok (ofDensityTriple n0 dm d0 dp k)
      | _, _, _ => .error .valueError
    else .error .valueError
  else .error .valueError

/-- `LinearLocalTool.density` (lines 257-292).  The `Bool` in the result is
whether the out-of-range advisory warning was emitted.  The returned array
is `self.density_zero.copy()` (allocated at `nextId`), in-place updated with
the scaled Fukui field (itself a fresh temporary) off the reference point. -/
def density (t : LinearLocalTool) (n_elec : PyVal) : Except PyErr (Bool × NArray) :=
  match n_elec with
  | .nonNum => .error .valueError
  | .none => .ok (warnOutOfRange t.n0 .none, npCopy t.density_zero t.nextId)
  | .num q =>
    if q < 0 then .error .valueError
    else
      let warned := warnOutOfRange t.n0 (.num q)
      let rho := npCopy t.density_zero t.nextId
      if q = t.n0 then .ok (warned, rho)
      else if q < t.n0 then
        .ok (warned, npIAdd rho (npSMul (q - t.n0) t.ff_minus (t.nextId + 1)))
      else
        .ok (warned, npIAdd rho (npSMul (q - t.n0) t.ff_plus (t.nextId + 1)))

/-- `LinearLocalTool.fukui_function` (lines 294-328).  The selected stored
Fukui field is returned itself, without a copy; the final branch models the
`UnboundLocalError` of `return ff` with no case taken. -/
def fukui_function (t : LinearLocalTool) (n_elec : PyVal) : Except PyErr (Bool × NArray) :=
  match n_elec with
  | .nonNum => .error .valueError
  | .none => .ok (warnOutOfRange t.n0 .none, t.ff_zero)
  | .num q =>
    if q < 0 then .error .valueError
    else
      let warned := warnOutOfRange t.n0 (.num q)
      if q = t.n0 then .ok (warned, t.ff_zero)
      else if q < t.n0 then .ok (warned, t.ff_minus)
      else if t.n0 < q then .ok (warned, t.ff_plus)
      else .error .unboundLocalError

/-- `LinearLocalTool.softness` (lines 330-363).  `global_softness * ff` is a
fresh numpy allocation. -/
def softness (t : LinearLocalTool) (global_softness : ℚ) (n_elec : PyVal) :
    Except PyErr (Bool × NArray) :=
  match n_elec with
  | .nonNum => .error .valueError
  | .none => .ok (warnOutOfRange t.n0 .none, npSMul global_softness t.ff_zero t.nextId)
  | .num q =>
    if q < 0 then .error .valueError
    else
      let warned := warnOutOfRange t.n0 (.num q)
      if q = t.n0 then .ok (warned, npSMul global_softness t.ff_zero t.nextId)
      else if q < t.n0 then .ok (warned, npSMul global_softness t.ff_minus t.nextId)
      else if t.n0 < q then .ok (warned, npSMul global_softness t.ff_plus t.nextId)
      else .error .unboundLocalError

end LinearLocalTool

/-- Splitting a scaled element-wise difference through a middle field of the
same length: `c*(zs - xs) = c*((zs - ys) + (ys - xs))`. -/
lemma smul_sub_split (c : ℚ) (xs ys zs : List ℚ) (h1 : xs.length = ys.length)
    (h2 : ys.length = zs.length) :
    listSMul c (listSub zs xs) = listSMul c (listAdd (listSub zs ys) (listSub ys xs)) := by
  induction xs generalizing ys zs with
  | nil =>
    cases ys with
    | nil =>
      cases zs with
      | nil => rfl
      | cons z zs => simp at h2
    | cons y ys => simp at h1
  | cons x xs ih =>
    cases ys with
    | nil => simp at h1
    | cons y ys =>
      cases zs with
      | nil => simp at h2
      | cons z zs =>
        simp only [List.length_cons, Nat.succ.injEq] at h1 h2
        simp only [listSMul, listSub, listAdd, List.zipWith_cons_cons, List.map_cons,
          List.cons.injEq]
        exact ⟨by ring, ih ys zs h1 h2⟩

/-- C5: for every valid density triple and every numeric `N ≥ 0`,
`density(N)` returns `rho0 + ff_minus*(N - N0)` when `N < N0`,
`rho0 + ff_plus*(N - N0)` when `N > N0`, and `rho0` when `N == N0` or `N`
is omitted; `fukui_function(N)` returns `ff_minus` when `N < N0`, `ff_plus`
when `N > N0`, and `ff_zero = (ff_plus + ff_minus)/2` when `N == N0` or `N`
is omitted, so `fukui_function()` and `fukui_function(N0)` both give
`ff_zero` element-wise. -/
theorem C5_density_fukui_dispatch (n0 : ℚ) (dm d0 dp : NArray) (k : Nat) (N : ℚ)
    (hN : 0 ≤ N) (h1 : dm.data.length = d0.data.length)
    (h2 : d0.data.length = dp.data.length) :
    (∃ w, (LinearLocalTool.ofDensityTriple n0 dm d0 dp k).density (.num N) =
      .ok (w, ⟨k + 4,
        if N < n0 then listAdd d0.data (listSMul (N - n0) (listSub d0.data dm.data))
        else if n0 < N then listAdd d0.data (listSMul (N - n0) (listSub dp.data d0.data))
        else d0.data⟩)) ∧
    (LinearLocalTool.ofDensityTriple n0 dm d0 dp k).density .none =
      .ok (true, ⟨k + 4, d0.data⟩) ∧
    (∃ w, (LinearLocalTool.ofDensityTriple n0 dm d0 dp k).fukui_function (.num N) =
      .ok (w, if N < n0 then (LinearLocalTool.ofDensityTriple n0 dm d0 dp k).ff_minus
              else if n0 < N then (LinearLocalTool.ofDensityTriple n0 dm d0 dp k).ff_plus
              else (LinearLocalTool.ofDensityTriple n0 dm d0 dp k).ff_zero)) ∧
    (LinearLocalTool.ofDensityTriple n0 dm d0 dp k).fukui_function .none =
      .ok (true, (LinearLocalTool.ofDensityTriple n0 dm d0 dp k).ff_zero) ∧
    (0 ≤ n0 → (LinearLocalTool.ofDensityTriple n0 dm d0 dp k).fukui_function (.num n0) =
      .ok (false, (LinearLocalTool.ofDensityTriple n0 dm d0 dp k).ff_zero)) ∧
    (LinearLocalTool.ofDensityTriple n0 dm d0 dp k).ff_zero.data =
      listSMul (1/2) (listAdd (listSub dp.data d0.data) (listSub d0.data dm.data)) := by
  have h0 : ¬ (N < 0) := not_lt.mpr hN
  have hb1 : n0 - 1 ≤ n0 := by linarith
  have hb2 : n0 ≤ n0 + 1 := by linarith
  refine ⟨⟨warnOutOfRange n0 (.num N), ?_⟩, ?_, ⟨warnOutOfRange n0 (.num N), ?_⟩, ?_, ?_, ?_⟩
  · by_cases heq : N = n0
    · subst heq
      simp [LinearLocalTool.density, LinearLocalTool.ofDensityTriple, LinearLocalTool.density_zero,
        npCopy, h0]
    · by_cases hlt : N < n0
      · simp [LinearLocalTool.density, LinearLocalTool.ofDensityTriple,
          LinearLocalTool.density_zero, npCopy, npIAdd, npSMul, npSub, h0, heq, hlt]
      · have hgt : n0 < N := lt_of_le_of_ne (not_lt.mp hlt) (Ne.symm heq)
        simp [LinearLocalTool.density, LinearLocalTool.ofDensityTriple,
          LinearLocalTool.density_zero, npCopy, npIAdd, npSMul, npSub, h0, heq, hlt,
          not_lt.mpr (le_of_lt hgt), hgt]
  · simp [LinearLocalTool.density, LinearLocalTool.ofDensityTriple, LinearLocalTool.density_zero,
      npCopy, warnOutOfRange, pyLe]
  · by_cases heq : N = n0
    · subst heq
      simp [LinearLocalTool.fukui_function, LinearLocalTool.ofDensityTriple, h0]
    · by_cases hlt : N < n0
      · simp [LinearLocalTool.fukui_function, LinearLocalTool.ofDensityTriple, h0, heq, hlt]
      · have hgt : n0 < N := lt_of_le_of_ne (not_lt.mp hlt) (Ne.symm heq)
        simp [LinearLocalTool.fukui_function, LinearLocalTool.ofDensityTriple, h0, heq, hlt, hgt]
  · simp [LinearLocalTool.fukui_function, LinearLocalTool.ofDensityTriple, warnOutOfRange, pyLe]
  · intro hn0
    simp [LinearLocalTool.fukui_function, LinearLocalTool.ofDensityTriple, not_lt.mpr hn0,
      warnOutOfRange, pyLe, hb1, hb2]
  · show listSMul (1/2) (listSub dp.data dm.data) = _
    exact smul_sub_split (1/2) dm.data d0.data dp.data h1 h2

theorem C5_density_fukui_dispatch_witness :
    ((0 : ℚ) ≤ 3/2 ∧ ([(1 : ℚ)] : List ℚ).length = [(2 : ℚ)].length ∧
      ([(2 : ℚ)] : List ℚ).length = [(4 : ℚ)].length) ∧
    ((∃ w, (LinearLocalTool.ofDensityTriple 2 ⟨0, [1]⟩ ⟨1, [2]⟩ ⟨2, [4]⟩ 10).density
        (.num (3/2)) =
      .ok (w, ⟨10 + 4,
        if (3/2 : ℚ) < 2 then listAdd [2] (listSMul ((3/2) - 2) (listSub [2] [1]))
        else if (2 : ℚ) < 3/2 then listAdd [2] (listSMul ((3/2) - 2) (listSub [4] [2]))
        else [2]⟩)) ∧
    (LinearLocalTool.ofDensityTriple 2 ⟨0, [1]⟩ ⟨1, [2]⟩ ⟨2, [4]⟩ 10).density .none =
      .ok (true, ⟨10 + 4, [2]⟩) ∧
    (∃ w, (LinearLocalTool.ofDensityTriple 2 ⟨0, [1]⟩ ⟨1, [2]⟩ ⟨2, [4]⟩ 10).fukui_function
        (.num (3/2)) =
      .ok (w, if (3/2 : ℚ) < 2 then
                (LinearLocalTool.ofDensityTriple 2 ⟨0, [1]⟩ ⟨1, [2]⟩ ⟨2, [4]⟩ 10).ff_minus
              else if (2 : ℚ) < 3/2 then
                (LinearLocalTool.ofDensityTriple 2 ⟨0, [1]⟩ ⟨1, [2]⟩ ⟨2, [4]⟩ 10).ff_plus
              else (LinearLocalTool.ofDensityTriple 2 ⟨0, [1]⟩ ⟨1, [2]⟩ ⟨2, [4]⟩ 10).ff_zero)) ∧
    (LinearLocalTool.ofDensityTriple 2 ⟨0, [1]⟩ ⟨1, [2]⟩ ⟨2, [4]⟩ 10).fukui_function .none =
      .ok (true, (LinearLocalTool.ofDensityTriple 2 ⟨0, [1]⟩ ⟨1, [2]⟩ ⟨2, [4]⟩ 10).ff_zero) ∧
    ((0 : ℚ) ≤ 2 →
      (LinearLocalTool.ofDensityTriple 2 ⟨0, [1]⟩ ⟨1, [2]⟩ ⟨2, [4]⟩ 10).fukui_function
          (.num 2) =
        .ok (false, (LinearLocalTool.ofDensityTriple 2 ⟨0, [1]⟩ ⟨1, [2]⟩ ⟨2, [4]⟩ 10).ff_zero)) ∧
    (LinearLocalTool.ofDensityTriple 2 ⟨0, [1]⟩ ⟨1, [2]⟩ ⟨2, [4]⟩ 10).ff_zero.data =
      listSMul (1/2) (listAdd (listSub [4] [2]) (listSub [2] [1]))) :=
  ⟨⟨by norm_num, by decide, by decide⟩,
    C5_density_fukui_dispatch 2 ⟨0, [1]⟩ ⟨1, [2]⟩ ⟨2, [4]⟩ 10 (3/2) (by norm_num)
      (by decide) (by decide)⟩

/-- A concrete local model: density triple `{1: [1], 2: [2], 3: [4]}` with
input arrays allocated at identifiers 0, 1, 2 and construction allocating
from identifier 10. -/
def tEx : LinearLocalTool :=
  LinearLocalTool.ofDensityTriple 2 ⟨0, [1]⟩ ⟨1, [2]⟩ ⟨2, [4]⟩ 10

/-- C6 counterexample: `fukui_function` does not return a fresh copy — on a
concrete model the returned field is the stored `ff_zero` object itself
(its allocation identifier is among the model's stored identifiers). -/
theorem C6_fukui_alias_counterexample :
    tEx.fukui_function .none = .ok (true, tEx.ff_zero) ∧
    tEx.ff_zero.id ∈ tEx.storedIds :=
  ⟨rfl, by decide⟩

/-- C6 amended: every field returned by `density` and by `softness` is a
freshly allocated array (its identifier is the model's next free identifier,
which is not a stored identifier), and `density(N0)` equals `density_zero`
in value while being a distinct object; `fukui_function`, by contrast,
returns one of the stored Fukui fields itself, so callers must not mutate
it; no query operation modifies the model's stored state (the only in-place
update targets the fresh copy). -/
theorem C6_amended_fresh_and_alias (t : LinearLocalTool) (hwf : t.wf) (hn0 : 0 ≤ t.n0)
    (N S : ℚ) (hN : 0 ≤ N) :
    (∃ w arrData, t.density (.num N) = .ok (w, ⟨t.nextId, arrData⟩)) ∧
    (∃ arrData, t.density .none = .ok (true, ⟨t.nextId, arrData⟩)) ∧
    t.nextId ∉ t.storedIds ∧
    t.density (.num t.n0) = .ok (false, ⟨t.nextId, t.density_zero.data⟩) ∧
    (∃ w arrData, t.softness S (.num N) = .ok (w, ⟨t.nextId, arrData⟩)) ∧
    (∃ arrData, t.softness S .none = .ok (true, ⟨t.nextId, arrData⟩)) ∧
    (∃ w ff, t.fukui_function (.num N) = .ok (w, ff) ∧
      (ff = t.ff_minus ∨ ff = t.ff_plus ∨ ff = t.ff_zero)) ∧
    t.fukui_function .none = .ok (true, t.ff_zero) := by
  have h0 : ¬ (N < 0) := not_lt.mpr hN
  have hb1 : t.n0 - 1 ≤ t.n0 := by linarith
  have hb2 : t.n0 ≤ t.n0 + 1 := by linarith
  refine ⟨?_, ?_, ?_, ?_, ?_, ?_, ?_, ?_⟩
  · refine ⟨warnOutOfRange t.n0 (.num N), ?_⟩
    by_cases heq : N = t.n0
    · subst heq
      exact ⟨t.density_zero.data, by simp [LinearLocalTool.density, h0, npCopy]⟩
    · by_cases hlt : N < t.n0
      · exact ⟨listAdd t.density_zero.data (listSMul (N - t.n0) t.ff_minus.data),
          by simp [LinearLocalTool.density, h0, heq, hlt, npIAdd, npCopy, npSMul]⟩
      · exact ⟨listAdd t.density_zero.data (listSMul (N - t.n0) t.ff_plus.data),
          by simp [LinearLocalTool.density, h0, heq, hlt, npIAdd, npCopy, npSMul]⟩
  · exact ⟨t.density_zero.data,
      by simp [LinearLocalTool.density, npCopy, warnOutOfRange, pyLe]⟩
  · intro hmem
    exact absurd (hwf _ hmem) (lt_irrefl _)
  · simp [LinearLocalTool.density, not_lt.mpr hn0, npCopy, warnOutOfRange, pyLe, hb1, hb2]
  · refine ⟨warnOutOfRange t.n0 (.num N), ?_⟩
    by_cases heq : N = t.n0
    · subst heq
      exact ⟨listSMul S t.ff_zero.data, by simp [LinearLocalTool.softness, h0, npSMul]⟩
    · by_cases hlt : N < t.n0
      · exact ⟨listSMul S t.ff_minus.data,
          by simp [LinearLocalTool.softness, h0, heq, hlt, npSMul]⟩
      · have hgt : t.n0 < N := lt_of_le_of_ne (not_lt.mp hlt) (Ne.symm heq)
        exact ⟨listSMul S t.ff_plus.data,
          by simp [LinearLocalTool.softness, h0, heq, hlt, hgt, npSMul]⟩
  · exact ⟨listSMul S t.ff_zero.data,
      by simp [LinearLocalTool.softness, npSMul, warnOutOfRange, pyLe]⟩
  · refine ⟨warnOutOfRange t.n0 (.num N), ?_⟩
    by_cases heq : N = t.n0
    · subst heq
      exact ⟨t.ff_zero, by simp [LinearLocalTool.fukui_function, h0], Or.inr (Or.inr rfl)⟩
    · by_cases hlt : N < t.n0
      · exact ⟨t.ff_minus, by simp [LinearLocalTool.fukui_function, h0, heq, hlt],
          Or.inl rfl⟩
      · have hgt : t.n0 < N := lt_of_le_of_ne (not_lt.mp hlt) (Ne.symm heq)
        exact ⟨t.ff_plus, by simp [LinearLocalTool.fukui_function, h0, heq, hlt, hgt],
          Or.inr (Or.inl rfl)⟩
  · simp [LinearLocalTool.fukui_function, warnOutOfRange, pyLe]

theorem C6_amended_fresh_and_alias_witness :
    (tEx.wf ∧ (0 : ℚ) ≤ tEx.n0 ∧ (0 : ℚ) ≤ 3) ∧
    ((∃ w arrData, tEx.density (.num 3) = .ok (w, ⟨tEx.nextId, arrData⟩)) ∧
    (∃ arrData, tEx.density .none = .ok (true, ⟨tEx.nextId, arrData⟩)) ∧
    tEx.nextId ∉ tEx.storedIds ∧
    tEx.density (.num tEx.n0) = .ok (false, ⟨tEx.nextId, tEx.density_zero.data⟩) ∧
    (∃ w arrData, tEx.softness 7 (.num 3) = .ok (w, ⟨tEx.nextId, arrData⟩)) ∧
    (∃ arrData, tEx.softness 7 .none = .ok (true, ⟨tEx.nextId, arrData⟩)) ∧
    (∃ w ff, tEx.fukui_function (.num 3) = .ok (w, ff) ∧
      (ff = tEx.ff_minus ∨ ff = tEx.ff_plus ∨ ff = tEx.ff_zero)) ∧
    tEx.fukui_function .none = .ok (true, tEx.ff_zero)) :=
  ⟨⟨by decide, by norm_num [tEx, LinearLocalTool.ofDensityTriple], by norm_num⟩,
    C6_amended_fresh_and_alias tEx (by decide)
      (by norm_num [tEx, LinearLocalTool.ofDensityTriple]) 3 7 (by norm_num)⟩

/-- C7 counterexample: not every query operation raises on a non-numeric
electron count — on the worked triple, `energy_derivative` called with a
non-numeric argument and order 1 succeeds and returns the upper-branch
slope `b' = -1/2` (the CPython 2 mixed-type comparisons route it past every
check), instead of raising the domain error the claim requires. -/
theorem C7_non_numeric_counterexample :
    (LinearGlobalTool.ofTriple 5 (-14) (-15) (-31/2)).energy_derivative .nonNum 1 =
      .ok (true, .num (-1/2)) := by
  simp [LinearGlobalTool.energy_derivative, LinearGlobalTool.ofTriple, pyLt, pyEq,
    warnOutOfRange, pyLe]
  norm_num

/-- C7 amended: `density`, `fukui_function` and `softness` raise the domain
error (`ValueError`) when the electron count is negative or non-numeric,
and `energy` and `energy_derivative` raise it when the electron count is
negative — in particular `energy(-1.0)` always raises it — and
`energy_derivative` raises it when `order` is not a positive integer; but
the two global-model operations do not validate non-numeric electron
counts: `energy` fails with a `TypeError` from the arithmetic instead, and
`energy_derivative` returns the upper-branch value without any error.
Failures are synchronous and, the operations being pure reads, leave the
model state unchanged. -/
theorem C7_amended_domain_errors (t : LinearGlobalTool) (l : LinearLocalTool)
    (N S : ℚ) (o1 o2 : ℤ) (hN : N < 0) (h1 : o1 ≤ 0) (h2 : 0 < o2) :
    t.energy (.num N) = .error .valueError ∧
    t.energy (.num (-1)) = .error .valueError ∧
    t.energy_derivative (.num N) o2 = .error .valueError ∧
    l.density (.num N) = .error .valueError ∧
    l.fukui_function (.num N) = .error .valueError ∧
    l.softness S (.num N) = .error .valueError ∧
    l.density .nonNum = .error .valueError ∧
    l.fukui_function .nonNum = .error .valueError ∧
    l.softness S .nonNum = .error .valueError ∧
    t.energy_derivative (.num 0) o1 = .error .valueError ∧
    t.energy .nonNum = .error .typeError ∧
    t.energy_derivative .nonNum o2 =
      .ok (true, if 2 ≤ o2 then .num 0 else .num t.param_b_prime) := by
  have h1' : ¬ (0 < o1) := not_lt.mpr h1
  refine ⟨?_, ?_, ?_, ?_, ?_, ?_, ?_, ?_, ?_, ?_, ?_, ?_⟩
  · simp [LinearGlobalTool.energy, pyLt, hN]
  · simp [LinearGlobalTool.energy, pyLt]
  · simp [LinearGlobalTool.energy_derivative, pyLt, hN]
  · simp [LinearLocalTool.density, hN]
  · simp [LinearLocalTool.fukui_function, hN]
  · simp [LinearLocalTool.softness, hN]
  · rfl
  · rfl
  · rfl
  · simp [LinearGlobalTool.energy_derivative, pyLt, h1']
  · simp [LinearGlobalTool.energy, pyLt, pyLe, pyMul]
  · by_cases ho : 2 ≤ o2 <;>
      simp [LinearGlobalTool.energy_derivative, pyLt, pyEq, h2, ho, warnOutOfRange, pyLe]

theorem C7_amended_domain_errors_witness :
    ((-1 : ℚ) < 0 ∧ (0 : ℤ) ≤ 0 ∧ (0 : ℤ) < 1) ∧
    ((LinearGlobalTool.ofTriple 5 (-14) (-15) (-31/2)).energy (.num (-1)) =
        .error .valueError ∧
    (LinearGlobalTool.ofTriple 5 (-14) (-15) (-31/2)).energy (.num (-1)) =
        .error .valueError ∧
    (LinearGlobalTool.ofTriple 5 (-14) (-15) (-31/2)).energy_derivative (.num (-1)) 1 =
        .error .valueError ∧
    tEx.density (.num (-1)) = .error .valueError ∧
    tEx.fukui_function (.num (-1)) = .error .valueError ∧
    tEx.softness 7 (.num (-1)) = .error .valueError ∧
    tEx.density .nonNum = .error .valueError ∧
    tEx.fukui_function .nonNum = .error .valueError ∧
    tEx.softness 7 .nonNum = .error .valueError ∧
    (LinearGlobalTool.ofTriple 5 (-14) (-15) (-31/2)).energy_derivative (.num 0) 0 =
        .error .valueError ∧
    (LinearGlobalTool.ofTriple 5 (-14) (-15) (-31/2)).energy .nonNum = .error .typeError ∧
    (LinearGlobalTool.ofTriple 5 (-14) (-15) (-31/2)).energy_derivative .nonNum 1 =
      .ok (true, if (2 : ℤ) ≤ 1 then .num 0
           else .num (LinearGlobalTool.ofTriple 5 (-14) (-15) (-31/2)).param_b_prime)) :=
  ⟨⟨by norm_num, by norm_num, by norm_num⟩,
    C7_amended_domain_errors (LinearGlobalTool.ofTriple 5 (-14) (-15) (-31/2)) tEx
      (-1) 7 0 1 (by norm_num) (by norm_num) (by norm_num)⟩

/-- A key that occurs among a dictionary's keys has a lookup value. -/
lemma lookup_of_mem_keys (a : ℚ) (d : List (ℚ × NArray)) (h : a ∈ d.map Prod.fst) :
    ∃ b, d.lookup a = some b := by
  induction d with
  | nil => simp at h
  | cons p tl ih =>
    obtain ⟨x, y⟩ := p
    rw [List.map_cons] at h
    by_cases hax : a = x
    · exact ⟨y, by simp [List.lookup, hax]⟩
    · rcases List.mem_cons.mp h with h1 | h2
      · exact absurd h1 hax
      · obtain ⟨b, hb⟩ := ih h2
        have hbeq : (a == x) = false := beq_eq_false_iff_ne.mpr hax
        exact ⟨b, by simp [List.lookup, hbeq, hb]⟩

/-- C8: constructing the local density model fails with the invalid-input
error exactly when the mapping does not have three entries, or a key is
negative, or the middle sorted key is below one, or the sorted keys are not
the three consecutive values around the middle key; on success the model
records the middle sorted key as `n0` and precomputes
`ff_minus = rho0 - rho_minus`, `ff_plus = rho_plus - rho0` and
`ff_zero = (rho_plus - rho_minus)/2` from the input fields. -/
theorem C8_init_validation (d : List (ℚ × NArray)) (k : Nat) :
    (LinearLocalTool.init d k = .error .valueError ↔
      ¬(d.length = 3 ∧ (∀ q ∈ d.map Prod.fst, 0 ≤ q) ∧
        1 ≤ LinearLocalTool.middleKey d ∧
        LinearLocalTool.sortedKeys d =
          [LinearLocalTool.middleKey d - 1, LinearLocalTool.middleKey d,
           LinearLocalTool.middleKey d + 1])) ∧
    (∀ t, LinearLocalTool.init d k = .ok t →
      t.n0 = LinearLocalTool.middleKey d ∧
      ∀ dm d0 dp, d.lookup (t.n0 - 1) = some dm → d.lookup t.n0 = some d0 →
        d.lookup (t.n0 + 1) = some dp →
        t.ff_minus.data = listSub d0.data dm.data ∧
        t.ff_plus.data = listSub dp.data d0.data ∧
        t.ff_zero.data = listSMul (1/2) (listSub dp.data dm.data)) := by
  by_cases hA : d.length = 3 ∧ ∀ q ∈ d.map Prod.fst, 0 ≤ q
  · by_cases hB : LinearLocalTool.middleKey d < 1
    · have hinit : LinearLocalTool.init d k = .error .valueError := by
        simp [LinearLocalTool.init, hA, hB]
      refine ⟨⟨fun _ h => absurd h.2.2.1 (not_le.mpr hB), fun _ => hinit⟩, ?_⟩
      intro t ht
      rw [hinit] at ht
      cases ht
    · by_cases hC : LinearLocalTool.sortedKeys d =
        [LinearLocalTool.middleKey d - 1, LinearLocalTool.middleKey d,
         LinearLocalTool.middleKey d + 1]
      · have hperm := List.perm_insertionSort (α := ℚ) (· ≤ ·) (d.map Prod.fst)
        have hm1 : LinearLocalTool.middleKey d - 1 ∈ d.map Prod.fst := by
          refine hperm.mem_iff.mp ?_
          show LinearLocalTool.middleKey d - 1 ∈ LinearLocalTool.sortedKeys d
          rw [hC]; simp
        have hm2 : LinearLocalTool.middleKey d ∈ d.map Prod.fst := by
          refine hperm.mem_iff.mp ?_
          show LinearLocalTool.middleKey d ∈ LinearLocalTool.sortedKeys d
          rw [hC]; simp
        have hm3 : LinearLocalTool.middleKey d + 1 ∈ d.map Prod.fst := by
          refine hperm.mem_iff.mp ?_
          show LinearLocalTool.middleKey d + 1 ∈ LinearLocalTool.sortedKeys d
          rw [hC]; simp
        obtain ⟨dm, hdm⟩ := lookup_of_mem_keys _ _ hm1
        obtain ⟨d0, hd0⟩ := lookup_of_mem_keys _ _ hm2
        obtain ⟨dp, hdp⟩ := lookup_of_mem_keys _ _ hm3
        have hinit : LinearLocalTool.init d k =
            .ok (LinearLocalTool.ofDensityTriple (LinearLocalTool.middleKey d) dm d0 dp k) := by
          simp [LinearLocalTool.init, hA, hB, hC, hdm, hd0, hdp]
          intro x y hxy
          exact hA.2 _ (List.mem_map_of_mem Prod.fst hxy)
        refine ⟨⟨fun he => ?_, fun hcon => ?_⟩, ?_⟩
        · rw [hinit] at he
          cases he
        · exact absurd ⟨hA.1, hA.2, not_lt.mp hB, hC⟩ hcon
        · intro t ht
          rw [hinit] at ht
          injection ht with ht
          subst ht
          refine ⟨rfl, ?_⟩
          intro dm' d0' dp' h1 h2 h3
          simp only [LinearLocalTool.ofDensityTriple] at h1 h2 h3
          rw [hdm] at h1
          rw [hd0] at h2
          rw [hdp] at h3
          obtain rfl : dm' = dm := (Option.some.inj h1).symm
          obtain rfl : d0' = d0 := (Option.some.inj h2).symm
          obtain rfl : dp' = dp := (Option.some.inj h3).symm
          exact ⟨rfl, rfl, rfl⟩
      · have hinit : LinearLocalTool.init d k = .error .valueError := by
          simp [LinearLocalTool.init, hA, hB, hC]
        refine ⟨⟨fun _ h => hC h.2.2.2, fun _ => hinit⟩, ?_⟩
        intro t ht
        rw [hinit] at ht
        cases ht
  · have hinit : LinearLocalTool.init d k = .error .valueError := by
      simp only [LinearLocalTool.init, if_neg hA]
    refine ⟨⟨fun _ h => hA ⟨h.1, h.2.1⟩, fun _ => hinit⟩, ?_⟩
    intro t ht
    rw [hinit] at ht
    cases ht

/-- The concrete density dictionary `{1: [1], 2: [2], 3: [4]}` with input
arrays allocated at identifiers 0, 1 and 2. -/
def dEx : List (ℚ × NArray) := [(1, ⟨0, [1]⟩), (2, ⟨1, [2]⟩), (3, ⟨2, [4]⟩)]

theorem C8_init_validation_witness :
    (LinearLocalTool.init dEx 10 = .ok tEx ∧
     dEx.lookup (tEx.n0 - 1) = some ⟨0, [1]⟩ ∧
     dEx.lookup tEx.n0 = some ⟨1, [2]⟩ ∧
     dEx.lookup (tEx.n0 + 1) = some ⟨2, [4]⟩) ∧
    (tEx.n0 = LinearLocalTool.middleKey dEx ∧
     tEx.ff_minus.data = listSub [2] [1] ∧
     tEx.ff_plus.data = listSub [4] [2] ∧
     tEx.ff_zero.data = listSMul (1/2) (listSub [4] [1])) := by
  have b21 : (((2 : ℚ) == 1) = false) := beq_eq_false_iff_ne.mpr (by norm_num)
  have b31 : (((3 : ℚ) == 1) = false) := beq_eq_false_iff_ne.mpr (by norm_num)
  have b32 : (((3 : ℚ) == 2) = false) := beq_eq_false_iff_ne.mpr (by norm_num)
  have hinit : LinearLocalTool.init dEx 10 = .ok tEx := by
    norm_num [LinearLocalTool.init, LinearLocalTool.middleKey, LinearLocalTool.sortedKeys,
      dEx, tEx, LinearLocalTool.ofDensityTriple, List.lookup, List.insertionSort,
      List.orderedInsert, b21, b31, b32]
  have h1 : dEx.lookup (tEx.n0 - 1) = some ⟨0, [1]⟩ := by
    norm_num [dEx, tEx, LinearLocalTool.ofDensityTriple, List.lookup, b21, b31, b32]
  have h2 : dEx.lookup tEx.n0 = some ⟨1, [2]⟩ := by
    norm_num [dEx, tEx, LinearLocalTool.ofDensityTriple, List.lookup, b21, b31, b32]
  have h3 : dEx.lookup (tEx.n0 + 1) = some ⟨2, [4]⟩ := by
    norm_num [dEx, tEx, LinearLocalTool.ofDensityTriple, List.lookup, b21, b31, b32]
  have h := (C8_init_validation dEx 10).2 tEx hinit
  exact ⟨⟨hinit, h1, h2, h3⟩, h.1, h.2 ⟨0, [1]⟩ ⟨1, [2]⟩ ⟨2, [4]⟩ h1 h2 h3⟩

/-- C9: for every density model, every scalar global softness `S` and every
admissible electron count (a numeric value at least zero, or omitted),
`softness(S, N)` equals `S` times `fukui_function(N)` element-wise: the two
operations' independent dispatches select the same Fukui field, and both
emit the same advisory warning. -/
theorem C9_softness_scales_fukui (t : LinearLocalTool) (S : ℚ) (n : PyVal)
    (hadm : n = .none ∨ ∃ q, n = .num q ∧ 0 ≤ q) :
    ∃ w ff, t.fukui_function n = .ok (w, ff) ∧
      t.softness S n = .ok (w, ⟨t.nextId, listSMul S ff.data⟩) := by
  rcases hadm with rfl | ⟨q, rfl, hq⟩
  · exact ⟨true, t.ff_zero,
      by simp [LinearLocalTool.fukui_function, warnOutOfRange, pyLe],
      by simp [LinearLocalTool.softness, npSMul, warnOutOfRange, pyLe]⟩
  · have h0 : ¬ (q < 0) := not_lt.mpr hq
    by_cases heq : q = t.n0
    · have h0' : ¬ (t.n0 < 0) := heq ▸ h0
      exact ⟨warnOutOfRange t.n0 (.num q), t.ff_zero,
        by simp [LinearLocalTool.fukui_function, h0, h0', heq],
        by simp [LinearLocalTool.softness, npSMul, h0, h0', heq]⟩
    · by_cases hlt : q < t.n0
      · exact ⟨warnOutOfRange t.n0 (.num q), t.ff_minus,
          by simp [LinearLocalTool.fukui_function, h0, heq, hlt],
          by simp [LinearLocalTool.softness, npSMul, h0, heq, hlt]⟩
      · have hgt : t.n0 < q := lt_of_le_of_ne (not_lt.mp hlt) (Ne.symm heq)
        exact ⟨warnOutOfRange t.n0 (.num q), t.ff_plus,
          by simp [LinearLocalTool.fukui_function, h0, heq, hlt, hgt],
          by simp [LinearLocalTool.softness, npSMul, h0, heq, hlt, hgt]⟩

theorem C9_softness_scales_fukui_witness :
    ((PyVal.num (3 : ℚ) = PyVal.none ∨ ∃ q, PyVal.num (3 : ℚ) = .num q ∧ 0 ≤ q) ∧
      (PyVal.none = PyVal.none ∨ ∃ q, PyVal.none = PyVal.num q ∧ 0 ≤ q)) ∧
    (∃ w ff, tEx.fukui_function (.num 3) = .ok (w, ff) ∧
      tEx.softness 7 (.num 3) = .ok (w, ⟨tEx.nextId, listSMul 7 ff.data⟩)) ∧
    (∃ w ff, tEx.fukui_function .none = .ok (w, ff) ∧
      tEx.softness 7 .none = .ok (w, ⟨tEx.nextId, listSMul 7 ff.data⟩)) :=
  ⟨⟨Or.inr ⟨3, rfl, by norm_num⟩, Or.inl rfl⟩,
    C9_softness_scales_fukui tEx 7 (.num 3) (Or.inr ⟨3, rfl, by norm_num⟩),
    C9_softness_scales_fukui tEx 7 .none (Or.inl rfl)⟩

/-- C10: when the electron-count argument is omitted (`None`), `density`,
`fukui_function` and `softness` still evaluate the out-of-range test against
the `None` value, which under CPython 2 mixed-type comparison is out of
range, so each such default-argument call emits the advisory warning; the
returned value is nevertheless the correct default (`rho0`, `ff_zero`,
`S * ff_zero` respectively). -/
theorem C10_none_always_warns (t : LinearLocalTool) (S : ℚ) :
    t.density .none = .ok (true, ⟨t.nextId, t.density_zero.data⟩) ∧
    t.fukui_function .none = .ok (true, t.ff_zero) ∧
    t.softness S .none = .ok (true, ⟨t.nextId, listSMul S t.ff_zero.data⟩) := by
  refine ⟨?_, ?_, ?_⟩ <;>
    simp [LinearLocalTool.density, LinearLocalTool.fukui_function, LinearLocalTool.softness,
      npCopy, npSMul, warnOutOfRange, pyLe]
